import Mathlib

/-!
Shallow embedding of the two Zynthian control-device drivers for the
Novation Launchkey Mini MK4 37:

* `midi_event_mini` embeds `zynthian_ctrldev_launchkey_mini_mk4_37.midi_event`
  (the Transport-mode / relative-encoder variant);
* `midi_event_mk4` embeds `zynthian_ctrldev_launchkey_mk4_37.midi_event`
  (the pickup / absolute-encoder variant);
* `update_pad_leds_mini` / `update_pad_leds_mk4` embed the two drivers'
  `update_pad_leds`.

Python wall-clock time is a rational parameter `Env.now`; Python floats are
embedded as exact rationals; Python dicts are association lists with lookup
semantics; observable calls to the host or device are recorded as a list of
`Effect` values in program order.  A result of `none` from `midi_event_*`
models an uncaught Python exception (an out-of-range index into the event
byte sequence); `some (handled, st, fx)` models a normal return of
`handled` with successor state `st` having emitted effects `fx`.
-/

namespace Launchkey

/-- Argument of a CUIA host action: an integer or a string/character. -/
inductive CuiaArg where
  | num (n : Int)
  | sym (s : String)
  deriving DecidableEq, Repr

/-- Observable side effects of the drivers, in program order:
host CUIA dispatch, mixer mutation, raw MIDI forwarding, device writes,
sequencer bank selection, processor preset change, and the two LED-refresh
helper calls. -/
inductive Effect where
  | sendCuia (name : String) (args : List CuiaArg)
  | setLevel (chan : Int) (level : ℚ)
  | setSolo (chan : Int) (v : Int)
  | setMute (chan : Int) (v : Int)
  | writeZynmidi (bytes : List Nat)
  | devSendCC (chan : Nat) (cc : Nat) (v : Nat)
  | devSendNoteOn (chan : Nat) (note : Nat) (vel : Nat)
  | selectBank (n : Nat)
  | setPreset (idx : Int)
  | updatePadLeds
  | updateButtonLeds
  deriving DecidableEq, Repr

/-- A routing chain as seen by the drivers: only its `mixer_chan` attribute
is consulted (`none` models Python `None`). -/
structure Chain where
  mixer_chan : Option Int
  deriving DecidableEq, Repr

/-- The processor attributes consulted by the preset-browsing knob:
`preset_list` is `none` when the attribute is missing, otherwise the list
length; `preset_index` is `none` when that attribute is missing. -/
structure Processor where
  preset_list : Option Nat
  preset_index : Option Int
  deriving DecidableEq, Repr

/-- The active chain as consulted by preset browsing. -/
structure ActiveChain where
  current_processor : Option Processor
  deriving DecidableEq, Repr

/-- External collaborators of `midi_event`: the wall clock, the chain
manager (`get_chain_by_position`), the mixer getters, and the active chain
for preset browsing.  All are total: external calls made by `midi_event`
are assumed not to raise. -/
structure Env where
  now : ℚ
  getChain : Nat → Option Chain
  getLevel : Int → ℚ
  getSolo : Int → Bool
  getMute : Int → Bool
  activeChain : Option ActiveChain

/-- Mutable state of the Transport-variant driver instance
(`zynthian_ctrldev_launchkey_mini_mk4_37.__init__`). -/
structure MiniState where
  shift : Bool
  press_times : List (Nat × ℚ)
  knob_bank : Int
  last_select_back_time : ℚ
  deriving DecidableEq, Repr

/-- Mutable state of the pickup-variant driver instance
(`zynthian_ctrldev_launchkey_mk4_37.__init__`). -/
structure Mk4State where
  shift : Bool
  press_times : List (Nat × ℚ)
  knob_bank : Int
  mixer_synced : List Nat
  last_zynpot_values : List (Nat × Nat)
  deriving DecidableEq, Repr

/-- Python dict assignment `d[k] = v`: the new binding shadows any old one. -/
def dictInsert {β : Type} (k : Nat) (v : β) (d : List (Nat × β)) : List (Nat × β) :=
  (k, v) :: d.filter (fun p => decide (p.1 ≠ k))

/-- Python dict deletion `del d[k]`. -/
def dictErase {β : Type} (k : Nat) (d : List (Nat × β)) : List (Nat × β) :=
  d.filter (fun p => decide (p.1 ≠ k))

/-- Relative Transport-mode decode, as written (twice, verbatim) at the
bank-0 mixer-knob handler and the bank-1 ZYNPOT handler of the
Transport-variant driver:

    if ccval == 1 or ccval < 64:
        delta = -1 if ccval == 1 else -(64 - ccval)
    elif ccval == 127 or ccval > 64:
        delta = 1 if ccval == 127 else (ccval - 64)
    else:
        delta = 0
-/
def transportDelta (ccval : Nat) : Int :=
  if ccval = 1 ∨ ccval < 64 then
    if ccval = 1 then -1 else -(64 - (ccval : Int))
  else if ccval = 127 ∨ 64 < ccval then
    if ccval = 127 then 1 else (ccval : Int) - 64
  else 0

/-- Transport-mode decode as the code actually behaves, stated for
comparison with the claim's words: the endpoint values 1 and 127 give the
minimum step (delta ∓1 instead of the claimed magnitudes 63), the interior
values follow the claimed magnitudes `64 - v` / `v - 64`, and 64 gives 0. -/
def amendedTransportDelta (v : Nat) : Int :=
  if v = 1 then -1
  else if v < 64 then -(64 - (v : Int))
  else if v = 64 then 0
  else if v = 127 then 1
  else (v : Int) - 64

/-- Press-duration bucketing shared verbatim by every hold-classified
button handler: short below 0.5 s, bold below 1.5 s, long otherwise. -/
def holdType (duration : ℚ) : String :=
  if duration < 1/2 then "S" else if duration < 3/2 then "B" else "L"

/-- The dict `{74: 0, 75: 1, 76: 3, 77: 2}.get(ccnum)` of both drivers. -/
def zynswitchIndex (cc : Nat) : Option Int :=
  if cc = 74 then some 0
  else if cc = 75 then some 1
  else if cc = 76 then some 3
  else if cc = 77 then some 2
  else none

/-- `button_commands` dict of the Transport-variant driver. -/
def buttonCommandMini (cc : Nat) : Option String :=
  if cc = 107 then some "PRESET"
  else if cc = 105 then some "MENU"
  else if cc = 102 then some "ARROW_RIGHT"
  else if cc = 103 then some "ARROW_LEFT"
  else if cc = 106 then some "BACK"
  else none

/-- `button_commands` dict of the pickup-variant driver. -/
def buttonCommandMk4 (cc : Nat) : Option String :=
  if cc = 106 then some "PRESET"
  else if cc = 107 then some "MENU"
  else if cc = 102 then some "ARROW_RIGHT"
  else if cc = 103 then some "ARROW_LEFT"
  else if cc = 104 then some "BACK"
  else none

/-- Note-on/off handling, textually identical in both drivers: pad notes
96-119 are consumed (solo row 96-103 and mute row 112-119 toggle the mixer
on a note-on with positive velocity and refresh the pad LEDs); every other
note is forwarded raw via `lib_zyncore.write_zynmidi(ev)` and the handler
returns `True`. -/
def noteEvent (env : Env) (evtype note vel : Nat) (ev : List Nat) :
    Bool × List Effect :=
  if 96 ≤ note ∧ note ≤ 119 then
    if 96 ≤ note ∧ note ≤ 103 ∧ evtype = 9 ∧ 0 < vel then
      match env.getChain (note - 96) with
      | some c =>
        match c.mixer_chan with
        | some mc =>
          if mc < 17 then
            (true, [Effect.setSolo mc (if env.getSolo mc then 0 else 1),
                    Effect.updatePadLeds])
          else (true, [])
        | none => (true, [])
      | none => (true, [])
    else if 112 ≤ note ∧ note ≤ 119 ∧ evtype = 9 ∧ 0 < vel then
      match env.getChain (note - 112) with
      | some c =>
        match c.mixer_chan with
        | some mc =>
          if mc < 17 then
            (true, [Effect.setMute mc (if env.getMute mc then 0 else 1),
                    Effect.updatePadLeds])
          else (true, [])
        | none => (true, [])
      | none => (true, [])
    else (true, [])
  else (true, [Effect.writeZynmidi ev])

/-- Preset browsing on bank-1 knob 5 (CC 89) of the Transport variant:
wraps the preset index around the preset list and refreshes two screens. -/
def presetBrowse (env : Env) (delta : Int) : List Effect :=
  match env.activeChain with
  | some ch =>
    match ch.current_processor with
    | some p =>
      match p.preset_list with
      | some n =>
        if 0 < n then
          let current_index := p.preset_index.getD 0
          let raw_index := current_index + delta
          let new_index : Int :=
            if raw_index < 0 then (n : Int) - 1
            else if (n : Int) ≤ raw_index then 0
            else raw_index
          [Effect.setPreset new_index,
           Effect.sendCuia "refresh_screen" [CuiaArg.sym "control"],
           Effect.sendCuia "refresh_screen" [CuiaArg.sym "audio_mixer"]]
        else []
      | none => []
    | none => []
  | none => []

/-- Host actions of the SELECT/BACK knob (bank-1 CC 90 of the Transport
variant) once an activation passes the debounce guard: counter-clockwise
values send BACK, clockwise values send a short ZYNSWITCH 3, and the
no-movement value 64 sends nothing. -/
def selBackActs (v : Nat) : List Effect :=
  if v = 1 ∨ v < 64 then [Effect.sendCuia "BACK" []]
  else if v = 127 ∨ 64 < v then
    [Effect.sendCuia "ZYNSWITCH" [CuiaArg.num 3, CuiaArg.sym "S"]]
  else []

/-- Control-change dispatch of the Transport-variant driver
(`zynthian_ctrldev_launchkey_mini_mk4_37.midi_event`, `evtype == 0xB`). -/
def ccEventMini (env : Env) (st : MiniState) (ev_chan ccnum ccval : Nat) :
    Bool × MiniState × List Effect :=
  if ccnum = 51 ∧ 0 < ccval then
    if st.shift then (true, st, [Effect.sendCuia "ARROW_UP" []])
    else (true, { st with knob_bank := (st.knob_bank - 1) % 3 },
          [Effect.updateButtonLeds])
  else if ccnum = 52 ∧ 0 < ccval then
    if st.shift then (true, st, [Effect.sendCuia "ARROW_DOWN" []])
    else (true, { st with knob_bank := (st.knob_bank + 1) % 3 },
          [Effect.updateButtonLeds])
  else if ccnum = 63 then
    (true, { st with shift := decide (ccval ≠ 0) }, [])
  else if ccnum = 104 then
    if 0 < ccval then
      (true, { st with press_times := dictInsert ccnum env.now st.press_times },
       [Effect.devSendCC 0 ccnum 127])
    else
      match st.press_times.lookup ccnum with
      | some t =>
        (true, { st with press_times := dictErase ccnum st.press_times },
         [Effect.sendCuia "ZYNSWITCH"
            [CuiaArg.num 3, CuiaArg.sym (holdType (env.now - t))]])
      | none => (true, st, [])
  else if 84 < ccnum ∧ ccnum < 93 then
    if st.knob_bank = 0 then
      (true, st,
        match env.getChain (ccnum - 84 - 1) with
        | some c =>
          match c.mixer_chan with
          | some mc =>
            if mc < 17 then
              let delta := transportDelta ccval
              if delta ≠ 0 then
                let current_level := env.getLevel mc
                let new_level := max 0 (min 1 (current_level + (delta : ℚ) * (1/100)))
                [Effect.setLevel mc new_level]
              else []
            else []
          | none => []
        | none => [])
    else if st.knob_bank = 1 then
      if 84 < ccnum ∧ ccnum < 89 then
        let delta := transportDelta ccval
        if delta ≠ 0 then
          (true, st, [Effect.sendCuia "ZYNPOT"
            [CuiaArg.num ((ccnum : Int) - 85), CuiaArg.num delta]])
        else (true, st, [])
      else if ccnum = 89 then
        let delta : Int :=
          if ccval = 1 ∨ ccval < 64 then -1
          else if ccval = 127 ∨ 64 < ccval then 1
          else 0
        if delta ≠ 0 then (true, st, presetBrowse env delta) else (true, st, [])
      else if ccnum = 90 then
        if env.now - st.last_select_back_time < 3/5 then (true, st, [])
        else
          (true, { st with last_select_back_time := env.now },
            if ccval = 1 ∨ ccval < 64 then [Effect.sendCuia "BACK" []]
            else if ccval = 127 ∨ 64 < ccval then
              [Effect.sendCuia "ZYNSWITCH" [CuiaArg.num 3, CuiaArg.sym "S"]]
            else [])
      else if ccnum = 91 then
        (true, st,
          if ccval = 1 ∨ ccval < 64 then [Effect.sendCuia "ARROW_LEFT" []]
          else if ccval = 127 ∨ 64 < ccval then [Effect.sendCuia "ARROW_RIGHT" []]
          else [])
      else if ccnum = 92 then
        (true, st,
          if ccval = 1 ∨ ccval < 64 then [Effect.sendCuia "ARROW_UP" []]
          else if ccval = 127 ∨ 64 < ccval then [Effect.sendCuia "ARROW_DOWN" []]
          else [])
      else (true, st, [])
    else if st.knob_bank = 2 then
      (true, st, [Effect.writeZynmidi [0xB0 ||| ev_chan, ccnum - 85 + 24, ccval]])
    else (false, st, [])
  else if ccnum = 74 ∨ ccnum = 75 ∨ ccnum = 76 ∨ ccnum = 77 then
    if st.shift = true ∧ ccnum = 76 then
      if 0 < ccval then (true, st, [Effect.sendCuia "TEMPO" []])
      else (true, st, [])
    else if 0 < ccval then
      (true, { st with press_times := dictInsert ccnum env.now st.press_times }, [])
    else
      match st.press_times.lookup ccnum with
      | some t =>
        (true, { st with press_times := dictErase ccnum st.press_times },
         [Effect.sendCuia "ZYNSWITCH"
            [CuiaArg.num ((zynswitchIndex ccnum).getD 0),
             CuiaArg.sym (holdType (env.now - t))]])
      | none => (true, st, [])
  else if ccnum = 115 ∧ 0 < ccval then
    (true, st, [Effect.sendCuia (if st.shift then "TOGGLE_MIDI_PLAY" else "TOGGLE_PLAY") []])
  else if ccnum = 117 ∧ 0 < ccval then
    (true, st, [Effect.sendCuia (if st.shift then "TOGGLE_MIDI_RECORD" else "TOGGLE_RECORD") []])
  else
    match buttonCommandMini ccnum with
    | some cmd =>
      if 0 < ccval then
        (true, st, [Effect.devSendCC 0 ccnum 127, Effect.sendCuia cmd []])
      else if ccnum = 0 ∨ ccval = 0 then (true, st, [])
      else (false, st, [])
    | none =>
      if ccnum = 0 ∨ ccval = 0 then (true, st, [])
      else (false, st, [])

/-- `midi_event` of the Transport-variant driver.  `none` models the
IndexError raised by `ev[1]`/`ev[2]` on a truncated message whose status
nibble is recognized. -/
def midi_event_mini (env : Env) (st : MiniState) (ev : List Nat) :
    Option (Bool × MiniState × List Effect) :=
  match ev with
  | [] => none
  | b0 :: rest =>
    let evtype := b0 / 16 % 16
    if evtype = 9 ∨ evtype = 8 then
      match rest with
      | d1 :: d2 :: _ =>
        let r := noteEvent env evtype (d1 % 128) (d2 % 128) ev
        some (r.1, st, r.2)
      | _ => none
    else if evtype = 11 then
      match rest with
      | d1 :: d2 :: _ => some (ccEventMini env st (b0 % 16) (d1 % 128) (d2 % 128))
      | _ => none
    else if evtype = 12 then
      match rest with
      | d1 :: _ => some (true, st, [Effect.selectBank (d1 % 128 + 1)])
      | _ => none
    else
      some (false, st, [])

/-- The 7-bit wraparound delta of the pickup-variant bank-1 ZYNPOT knobs:

    delta = ccval - last_val
    if delta > 64:
        delta -= 128
    elif delta < -64:
        delta += 128
-/
def wrapDelta (last_val ccval : Nat) : Int :=
  let delta0 : Int := (ccval : Int) - (last_val : Int)
  if 64 < delta0 then delta0 - 128
  else if delta0 < -64 then delta0 + 128
  else delta0

/-- Control-change dispatch of the pickup-variant driver
(`zynthian_ctrldev_launchkey_mk4_37.midi_event`, `evtype == 0xB`). -/
def ccEventMk4 (env : Env) (st : Mk4State) (ev_chan ccnum ccval : Nat) :
    Bool × Mk4State × List Effect :=
  if ccnum = 51 ∧ 0 < ccval then
    if st.shift then (true, st, [Effect.sendCuia "ARROW_UP" []])
    else (true, { st with knob_bank := (st.knob_bank - 1) % 3, mixer_synced := [] },
          [Effect.updateButtonLeds])
  else if ccnum = 52 ∧ 0 < ccval then
    if st.shift then (true, st, [Effect.sendCuia "ARROW_DOWN" []])
    else (true, { st with knob_bank := (st.knob_bank + 1) % 3, mixer_synced := [] },
          [Effect.updateButtonLeds])
  else if ccnum = 63 then
    (true, { st with shift := decide (ccval ≠ 0) }, [])
  else if ccnum = 105 then
    if 0 < ccval then
      (true, { st with press_times := dictInsert ccnum env.now st.press_times },
       [Effect.devSendCC 0 ccnum 127])
    else
      match st.press_times.lookup ccnum with
      | some t =>
        (true, { st with press_times := dictErase ccnum st.press_times },
         [Effect.sendCuia "ZYNSWITCH"
            [CuiaArg.num 3, CuiaArg.sym (holdType (env.now - t))]])
      | none => (true, st, [])
  else if 20 < ccnum ∧ ccnum < 29 then
    if st.knob_bank = 0 then
      if 20 < ccnum ∧ ccnum < 27 then
        match env.getChain (ccnum - 20 - 1) with
        | some c =>
          match c.mixer_chan with
          | some mc =>
            if mc < 17 then
              let current_level := env.getLevel mc
              let new_level := (ccval : ℚ) / 127
              if ¬ (ccnum ∈ st.mixer_synced) then
                if |new_level - current_level| < 2/100 then
                  (true, { st with mixer_synced := ccnum :: st.mixer_synced },
                   [Effect.setLevel mc new_level])
                else (true, st, [])
              else (true, st, [Effect.setLevel mc new_level])
            else (true, st, [])
          | none => (true, st, [])
        | none => (true, st, [])
      else (true, st, [])
    else if st.knob_bank = 1 then
      if 20 < ccnum ∧ ccnum < 25 then
        match st.last_zynpot_values.lookup ccnum with
        | none =>
          (true, { st with last_zynpot_values := dictInsert ccnum ccval st.last_zynpot_values }, [])
        | some last_val =>
          let delta := wrapDelta last_val ccval
          if delta ≠ 0 then
            (true, { st with last_zynpot_values := dictInsert ccnum ccval st.last_zynpot_values },
             [Effect.sendCuia "ZYNPOT"
               [CuiaArg.num ((ccnum : Int) - 21), CuiaArg.num delta]])
          else (true, st, [])
      else
        (true, st, [Effect.writeZynmidi [0xB0 ||| ev_chan, ccnum - 25 + 20, ccval]])
    else (false, st, [])
  else if ccnum = 74 ∨ ccnum = 75 ∨ ccnum = 76 ∨ ccnum = 77 then
    if st.shift = true ∧ ccnum = 76 then
      if 0 < ccval then (true, st, [Effect.sendCuia "TEMPO" []])
      else (true, st, [])
    else if 0 < ccval then
      (true, { st with press_times := dictInsert ccnum env.now st.press_times }, [])
    else
      match st.press_times.lookup ccnum with
      | some t =>
        (true, { st with press_times := dictErase ccnum st.press_times },
         [Effect.sendCuia "ZYNSWITCH"
            [CuiaArg.num ((zynswitchIndex ccnum).getD 0),
             CuiaArg.sym (holdType (env.now - t))]])
      | none => (true, st, [])
  else if ccnum = 115 ∧ 0 < ccval then
    (true, st, [Effect.sendCuia (if st.shift then "TOGGLE_MIDI_PLAY" else "TOGGLE_PLAY") []])
  else if ccnum = 117 ∧ 0 < ccval then
    (true, st, [Effect.sendCuia (if st.shift then "TOGGLE_MIDI_RECORD" else "TOGGLE_RECORD") []])
  else
    match buttonCommandMk4 ccnum with
    | some cmd =>
      if 0 < ccval then
        (true, st, [Effect.devSendCC 0 ccnum 127, Effect.sendCuia cmd []])
      else if ccnum = 0 ∨ ccval = 0 then (true, st, [])
      else (false, st, [])
    | none =>
      if ccnum = 0 ∨ ccval = 0 then (true, st, [])
      else (false, st, [])

/-- `midi_event` of the pickup-variant driver.  `none` models the
IndexError raised by `ev[1]`/`ev[2]` on a truncated message whose status
nibble is recognized. -/
def midi_event_mk4 (env : Env) (st : Mk4State) (ev : List Nat) :
    Option (Bool × Mk4State × List Effect) :=
  match ev with
  | [] => none
  | b0 :: rest =>
    let evtype := b0 / 16 % 16
    if evtype = 9 ∨ evtype = 8 then
      match rest with
      | d1 :: d2 :: _ =>
        let r := noteEvent env evtype (d1 % 128) (d2 % 128) ev
        some (r.1, st, r.2)
      | _ => none
    else if evtype = 11 then
      match rest with
      | d1 :: d2 :: _ => some (ccEventMk4 env st (b0 % 16) (d1 % 128) (d2 % 128))
      | _ => none
    else if evtype = 12 then
      match rest with
      | d1 :: _ => some (true, st, [Effect.selectBank (d1 % 128 + 1)])
      | _ => none
    else
      some (false, st, [])

/-- Outcome of `chain_manager.get_chain_by_position(i, midi=False)` inside
`update_pad_leds`, whose per-position `try` block also catches a raised
lookup (`err`). -/
inductive ChainLookup where
  | err
  | noChain
  | chain (mixer_chan : Option Int)
  deriving DecidableEq, Repr

/-- External collaborators of `update_pad_leds`: output-device presence,
the two `hasattr` probes, the per-position chain lookup and the mixer
mute/solo getters. -/
structure LedEnv where
  idev_out_present : Bool
  has_chain_manager : Bool
  has_zynmixer : Bool
  lookupChain : Nat → ChainLookup
  getSolo : Int → Bool
  getMute : Int → Bool

/-- Velocity computed for solo-row pad `i` (note `96 + i`): any lookup
failure, absent chain, absent channel or out-of-range channel yields 0;
otherwise the variant-specific soloed/unsoloed velocity. -/
def soloPadVel (env : LedEnv) (soloOn soloDim : Nat) (i : Nat) : Nat :=
  match env.lookupChain i with
  | ChainLookup.err => 0
  | ChainLookup.noChain => 0
  | ChainLookup.chain none => 0
  | ChainLookup.chain (some mc) =>
    if mc < 17 then (if env.getSolo mc then soloOn else soloDim) else 0

/-- Velocity computed for mute-row pad `i` (note `112 + i`): failures
yield 0; otherwise 5 (muted) or 64 (unmuted), in both variants. -/
def mutePadVel (env : LedEnv) (i : Nat) : Nat :=
  match env.lookupChain i with
  | ChainLookup.err => 0
  | ChainLookup.noChain => 0
  | ChainLookup.chain none => 0
  | ChainLookup.chain (some mc) =>
    if mc < 17 then (if env.getMute mc then 5 else 64) else 0

/-- `update_pad_leds`, parameterized by the two variant-specific solo-row
velocities: returns immediately with no writes when the output device or a
manager attribute is missing, else writes one note-on per pad, 8 solo-row
then 8 mute-row positions. -/
def updatePadLedsCore (env : LedEnv) (soloOn soloDim : Nat) : List Effect :=
  if env.idev_out_present = false then []
  else if ¬ (env.has_chain_manager = true ∧ env.has_zynmixer = true) then []
  else
    ((List.range 8).map fun i =>
      Effect.devSendNoteOn 0 (96 + i) (soloPadVel env soloOn soloDim i)) ++
    ((List.range 8).map fun i =>
      Effect.devSendNoteOn 0 (112 + i) (mutePadVel env i))

/-- `update_pad_leds` of the Transport-variant driver (soloed pads get
velocity 14, unsoloed 118). -/
def update_pad_leds_mini (env : LedEnv) : List Effect :=
  updatePadLedsCore env 14 118

/-- `update_pad_leds` of the pickup-variant driver (soloed pads get
velocity 5, unsoloed 10). -/
def update_pad_leds_mk4 (env : LedEnv) : List Effect :=
  updatePadLedsCore env 5 10

/-- A chain-resolution failure for pad position `i`, as enumerated by the
spec: raised lookup, missing chain, channel `None`, or channel out of the
valid range. -/
def chainResolveFails (env : LedEnv) (i : Nat) : Prop :=
  env.lookupChain i = ChainLookup.err ∨
  env.lookupChain i = ChainLookup.noChain ∨
  env.lookupChain i = ChainLookup.chain none ∨
  ∃ mc, env.lookupChain i = ChainLookup.chain (some mc) ∧ 17 ≤ mc

/-- Marker for raw-MIDI forwarding effects. -/
def isForward : Effect → Bool
  | Effect.writeZynmidi _ => true
  | _ => false

/-! Concrete fixtures used by witnesses and counterexamples. -/

/-- A chain backed by mixer channel 3. -/
def chain3 : Chain := ⟨some 3⟩

/-- A concrete environment: clock at 10 s, every position holding a chain
on mixer channel 3, all levels 1/2, nothing soloed or muted. -/
def envA : Env :=
  { now := 10
    getChain := fun _ => some chain3
    getLevel := fun _ => 1/2
    getSolo := fun _ => false
    getMute := fun _ => false
    activeChain := none }

/-- `envA` with the clock moved to `t`. -/
def envAt (t : ℚ) : Env := { envA with now := t }

/-- Fresh state of the Transport-variant driver (`__init__`). -/
def miniState0 : MiniState :=
  { shift := false, press_times := [], knob_bank := 1, last_select_back_time := 0 }

/-- Fresh state of the pickup-variant driver (`__init__`). -/
def mk4State0 : Mk4State :=
  { shift := false, press_times := [], knob_bank := 0, mixer_synced := [],
    last_zynpot_values := [] }

/-- A concrete LED environment where position 3 has no chain and position 5
has an out-of-range channel, all other positions resolving to channel 3. -/
def ledEnvA : LedEnv :=
  { idev_out_present := true
    has_chain_manager := true
    has_zynmixer := true
    lookupChain := fun i =>
      if i = 3 then ChainLookup.noChain
      else if i = 5 then ChainLookup.chain (some 20)
      else ChainLookup.chain (some 3)
    getSolo := fun _ => false
    getMute := fun _ => false }

/-! Helper lemmas shared between claims. -/

theorem transportDelta_eq_amended (v : Nat) :
    transportDelta v = amendedTransportDelta v := by
  simp only [transportDelta, amendedTransportDelta]
  split_ifs with h1 h2 h3 h4 h5 h6 h7 h8 h9 h10 <;> omega

theorem amendedTransportDelta_eq_zero_iff {v : Nat} (h1 : 1 ≤ v) (h2 : v ≤ 127) :
    amendedTransportDelta v = 0 ↔ v = 64 := by
  have h : ∀ w : Fin 128, (amendedTransportDelta w.1 = 0 ↔ w.1 = 64) := by decide
  exact h ⟨v, by omega⟩

theorem envA_getLevel (c : Int) : envA.getLevel c = 1/2 := rfl

theorem midi_event_mini_ccnum (env : Env) (st : MiniState) (d1 d2 : Nat) :
    midi_event_mini env st [176, d1, d2] =
      some (ccEventMini env st 0 (d1 % 128) (d2 % 128)) := rfl

theorem midi_event_mk4_ccnum (env : Env) (st : Mk4State) (d1 d2 : Nat) :
    midi_event_mk4 env st [176, d1, d2] =
      some (ccEventMk4 env st 0 (d1 % 128) (d2 % 128)) := rfl

theorem ccEventMini_bank1_zynpot (env : Env) (st : MiniState) (cc v : Nat)
    (hkb : st.knob_bank = 1) (hc1 : 85 ≤ cc) (hc2 : cc ≤ 88) :
    ccEventMini env st 0 cc v =
      (true, st,
        if transportDelta v = 0 then []
        else [Effect.sendCuia "ZYNPOT"
          [CuiaArg.num ((cc : Int) - 85), CuiaArg.num (transportDelta v)]]) := by
  interval_cases cc <;>
  · simp only [ccEventMini, hkb]
    norm_num
    by_cases h : transportDelta v = 0 <;> simp [h]

set_option maxHeartbeats 1600000 in
theorem ccEventMini_bank0_mixer (env : Env) (st : MiniState) (cc v : Nat) (mc : Int)
    (hkb : st.knob_bank = 0) (hc1 : 85 ≤ cc) (hc2 : cc ≤ 92)
    (hch : env.getChain (cc - 85) = some ⟨some mc⟩) (hmc : mc < 17) :
    ccEventMini env st 0 cc v =
      (true, st,
        if transportDelta v = 0 then []
        else [Effect.setLevel mc
          (max 0 (min 1 (env.getLevel mc + (transportDelta v : ℚ) * (1/100))))]) := by
  interval_cases cc <;>
  · norm_num at hch
    simp only [ccEventMini, hkb]
    norm_num
    simp only [hch, hmc, if_pos]

theorem ccEventMk4_bank1_zynpot_seed (env : Env) (st : Mk4State) (cc v : Nat)
    (hkb : st.knob_bank = 1) (hc1 : 21 ≤ cc) (hc2 : cc ≤ 24)
    (hl : st.last_zynpot_values.lookup cc = none) :
    ccEventMk4 env st 0 cc v =
      (true, { st with last_zynpot_values := dictInsert cc v st.last_zynpot_values }, []) := by
  interval_cases cc <;>
  · simp only [ccEventMk4, hkb]
    norm_num
    simp only [hl]

set_option maxHeartbeats 1600000 in
theorem ccEventMk4_bank1_zynpot_delta (env : Env) (st : Mk4State) (cc a b : Nat)
    (hkb : st.knob_bank = 1) (hc1 : 21 ≤ cc) (hc2 : cc ≤ 24)
    (hl : st.last_zynpot_values.lookup cc = some a) :
    ccEventMk4 env st 0 cc b =
      (if wrapDelta a b ≠ 0 then
        (true, { st with last_zynpot_values := dictInsert cc b st.last_zynpot_values },
          [Effect.sendCuia "ZYNPOT"
            [CuiaArg.num ((cc : Int) - 21), CuiaArg.num (wrapDelta a b)]])
      else (true, st, [])) := by
  interval_cases cc <;>
  · simp only [ccEventMk4, hkb]
    norm_num
    simp only [hl]
    try norm_num

set_option maxHeartbeats 1600000 in
theorem ccEventMk4_bank0_mixer (env : Env) (st : Mk4State) (cc v : Nat) (mc : Int)
    (hkb : st.knob_bank = 0) (hc1 : 21 ≤ cc) (hc2 : cc ≤ 26)
    (hch : env.getChain (cc - 21) = some ⟨some mc⟩) (hmc : mc < 17) :
    ccEventMk4 env st 0 cc v =
      (if ¬ (cc ∈ st.mixer_synced) then
        (if |(v : ℚ)/127 - env.getLevel mc| < 2/100 then
          (true, { st with mixer_synced := cc :: st.mixer_synced },
            [Effect.setLevel mc ((v : ℚ)/127)])
        else (true, st, []))
      else (true, st, [Effect.setLevel mc ((v : ℚ)/127)])) := by
  interval_cases cc <;>
  · norm_num at hch
    simp only [ccEventMk4, hkb]
    norm_num
    simp only [hch, hmc, if_pos]
    try norm_num

theorem envAt_now (t : ℚ) : (envAt t).now = t := rfl

set_option maxHeartbeats 1600000 in
theorem ccEventMini_hold (env : Env) (st : MiniState) (cc v : Nat)
    (hcc : cc = 74 ∨ cc = 75 ∨ cc = 76 ∨ cc = 77 ∨ cc = 104)
    (hsh : ¬ (st.shift = true ∧ cc = 76)) :
    ccEventMini env st 0 cc v =
      (if 0 < v then
        (true, { st with press_times := dictInsert cc env.now st.press_times },
          if cc = 104 then [Effect.devSendCC 0 104 127] else [])
      else
        match st.press_times.lookup cc with
        | some t =>
          (true, { st with press_times := dictErase cc st.press_times },
            [Effect.sendCuia "ZYNSWITCH"
              [CuiaArg.num (if cc = 104 then 3 else (zynswitchIndex cc).getD 0),
               CuiaArg.sym (holdType (env.now - t))]])
        | none => (true, st, [])) := by
  have hs76 : cc = 76 → st.shift = false := by
    intro h76
    rcases Bool.eq_false_or_eq_true st.shift with hs | hs
    · exact absurd ⟨hs, h76⟩ hsh
    · exact hs
  rcases hcc with rfl | rfl | rfl | rfl | rfl
  · simp only [ccEventMini]; norm_num
  · simp only [ccEventMini]; norm_num
  · simp only [ccEventMini, hs76 rfl]; norm_num
  · simp only [ccEventMini]; norm_num
  · simp only [ccEventMini]; norm_num

set_option maxHeartbeats 1600000 in
theorem ccEventMk4_hold (env : Env) (st : Mk4State) (cc v : Nat)
    (hcc : cc = 74 ∨ cc = 75 ∨ cc = 76 ∨ cc = 77 ∨ cc = 105)
    (hsh : ¬ (st.shift = true ∧ cc = 76)) :
    ccEventMk4 env st 0 cc v =
      (if 0 < v then
        (true, { st with press_times := dictInsert cc env.now st.press_times },
          if cc = 105 then [Effect.devSendCC 0 105 127] else [])
      else
        match st.press_times.lookup cc with
        | some t =>
          (true, { st with press_times := dictErase cc st.press_times },
            [Effect.sendCuia "ZYNSWITCH"
              [CuiaArg.num (if cc = 105 then 3 else (zynswitchIndex cc).getD 0),
               CuiaArg.sym (holdType (env.now - t))]])
        | none => (true, st, [])) := by
  have hs76 : cc = 76 → st.shift = false := by
    intro h76
    rcases Bool.eq_false_or_eq_true st.shift with hs | hs
    · exact absurd ⟨hs, h76⟩ hsh
    · exact hs
  rcases hcc with rfl | rfl | rfl | rfl | rfl
  · simp only [ccEventMk4]; norm_num
  · simp only [ccEventMk4]; norm_num
  · simp only [ccEventMk4, hs76 rfl]; norm_num
  · simp only [ccEventMk4]; norm_num
  · simp only [ccEventMk4]; norm_num

/-- Claim C1: the claim states that every raw value v in [1,63] on a bank-0
mixer knob or bank-1 ZYNPOT knob of the Transport-variant driver yields a
negative delta of magnitude `64 - v`.  It is false at v = 1: the code
special-cases the endpoint and emits ZYNPOT delta -1, whereas the claim
requires magnitude 64 - 1 = 63. -/
theorem c1_counterexample :
    midi_event_mini envA miniState0 [176, 85, 1] =
      some (true, miniState0,
        [Effect.sendCuia "ZYNPOT" [CuiaArg.num 0, CuiaArg.num (-1)]]) ∧
    (-1 : Int) ≠ -(64 - 1) := by
  exact ⟨by decide, by decide⟩

/-- Claim C1 (amended): for the Transport-variant driver, raw value v = 1
yields delta -1 and v = 127 yields delta +1 (the code's endpoint special
cases); v in [2,63] yields delta -(64-v); v in [65,126] yields delta v-64;
and v = 64 yields delta 0, emitting no action.  This delta is emitted as a
ZYNPOT action by the bank-1 ZYNPOT knobs (CC 85-88), and drives the
clamped mixer-level nudge of the bank-0 mixer knobs (CC 85-92) when the
knob's chain resolves to a valid mixer channel. -/
theorem c1_transport_decode :
    (∀ (env : Env) (st : MiniState) (cc v : Nat),
      st.knob_bank = 1 → 85 ≤ cc → cc ≤ 88 → 1 ≤ v → v ≤ 127 →
      midi_event_mini env st [176, cc, v] =
        some (true, st,
          if amendedTransportDelta v = 0 then []
          else [Effect.sendCuia "ZYNPOT"
            [CuiaArg.num ((cc : Int) - 85), CuiaArg.num (amendedTransportDelta v)]]) ∧
      (amendedTransportDelta v = 0 ↔ v = 64)) ∧
    (∀ (env : Env) (st : MiniState) (cc v : Nat) (mc : Int),
      st.knob_bank = 0 → 85 ≤ cc → cc ≤ 92 → 1 ≤ v → v ≤ 127 →
      env.getChain (cc - 85) = some ⟨some mc⟩ → mc < 17 →
      midi_event_mini env st [176, cc, v] =
        some (true, st,
          if amendedTransportDelta v = 0 then []
          else [Effect.setLevel mc
            (max 0 (min 1 (env.getLevel mc + (amendedTransportDelta v : ℚ) * (1/100))))])) := by
  constructor
  · intro env st cc v hkb hc1 hc2 hv1 hv2
    have hv : v % 128 = v := Nat.mod_eq_of_lt (by omega)
    have hcc : cc % 128 = cc := Nat.mod_eq_of_lt (by omega)
    refine ⟨?_, amendedTransportDelta_eq_zero_iff hv1 hv2⟩
    rw [midi_event_mini_ccnum, hv, hcc,
      ccEventMini_bank1_zynpot env st cc v hkb hc1 hc2, transportDelta_eq_amended]
  · intro env st cc v mc hkb hc1 hc2 hv1 hv2 hchain hmc
    have hv : v % 128 = v := Nat.mod_eq_of_lt (by omega)
    have hcc : cc % 128 = cc := Nat.mod_eq_of_lt (by omega)
    rw [midi_event_mini_ccnum, hv, hcc,
      ccEventMini_bank0_mixer env st cc v mc hkb hc1 hc2 hchain hmc,
      transportDelta_eq_amended]

/-- Claim C1 witness: at v = 2 on ZYNPOT knob CC 85 (bank 1) the emitted
delta is -(64-2) = -62, and at v = 64 no action is emitted. -/
theorem c1_witness :
    midi_event_mini envA miniState0 [176, 85, 2] =
      some (true, miniState0,
        [Effect.sendCuia "ZYNPOT" [CuiaArg.num 0, CuiaArg.num (-62)]]) ∧
    midi_event_mini envA miniState0 [176, 85, 64] = some (true, miniState0, []) := by
  constructor
  · have h := (c1_transport_decode.1 envA miniState0 85 2 rfl (by decide) (by decide)
      (by decide) (by decide)).1
    simpa using h
  · have h := (c1_transport_decode.1 envA miniState0 85 64 rfl (by decide) (by decide)
      (by decide) (by decide)).1
    simpa using h

/-- Claim C2: the claim states the emitted ZYNPOT delta always equals
`((b - a + 64) mod 128) - 64`.  It is false when `b - a = 64`: with last
raw value 0 recorded for knob CC 21 and new raw value 64, the code emits
delta +64, whereas the formula gives `(128 mod 128) - 64 = -64`. -/
theorem c2_counterexample :
    midi_event_mk4 envA
        { shift := false, press_times := [], knob_bank := 1, mixer_synced := [],
          last_zynpot_values := [(21, 0)] } [176, 21, 64] =
      some (true,
        { shift := false, press_times := [], knob_bank := 1, mixer_synced := [],
          last_zynpot_values := [(21, 64)] },
        [Effect.sendCuia "ZYNPOT" [CuiaArg.num 0, CuiaArg.num 64]]) ∧
    (64 : Int) ≠ ((64 - 0 + 64) % 128) - 64 :=
  ⟨by decide, by decide⟩

/-- Claim C2 (amended): for a bank-1 ZYNPOT knob of the pickup-variant
driver with last raw value a recorded, a new raw value b emits (when
nonzero) the delta `b - a` corrected by subtracting 128 when `b - a > 64`
and adding 128 when `b - a < -64`; this agrees with
`((b - a + 64) mod 128) - 64` everywhere except at `b - a = 64`, where the
code emits +64.  Boundaries: a=0,b=127 gives -1 and a=127,b=0 gives +1.
The first observation after a reset only seeds the memory and emits
nothing. -/
theorem c2_relative_by_difference :
    (∀ (env : Env) (st : Mk4State) (cc v : Nat),
      st.knob_bank = 1 → 21 ≤ cc → cc ≤ 24 → v ≤ 127 →
      st.last_zynpot_values.lookup cc = none →
      midi_event_mk4 env st [176, cc, v] =
        some (true, { st with last_zynpot_values := dictInsert cc v st.last_zynpot_values },
          [])) ∧
    (∀ (env : Env) (st : Mk4State) (cc a b : Nat),
      st.knob_bank = 1 → 21 ≤ cc → cc ≤ 24 → b ≤ 127 →
      st.last_zynpot_values.lookup cc = some a →
      midi_event_mk4 env st [176, cc, b] =
        some (if wrapDelta a b ≠ 0 then
          (true, { st with last_zynpot_values := dictInsert cc b st.last_zynpot_values },
            [Effect.sendCuia "ZYNPOT"
              [CuiaArg.num ((cc : Int) - 21), CuiaArg.num (wrapDelta a b)]])
        else (true, st, []))) ∧
    (∀ a b : Nat, a ≤ 127 → b ≤ 127 → (b : Int) - a ≠ 64 →
      wrapDelta a b = ((b : Int) - a + 64) % 128 - 64) ∧
    wrapDelta 0 127 = -1 ∧ wrapDelta 127 0 = 1 := by
  refine ⟨?_, ?_, ?_, by decide, by decide⟩
  · intro env st cc v hkb hc1 hc2 hv hl
    have hv' : v % 128 = v := Nat.mod_eq_of_lt (by omega)
    have hcc : cc % 128 = cc := Nat.mod_eq_of_lt (by omega)
    rw [midi_event_mk4_ccnum, hv', hcc,
      ccEventMk4_bank1_zynpot_seed env st cc v hkb hc1 hc2 hl]
  · intro env st cc a b hkb hc1 hc2 hb hl
    have hb' : b % 128 = b := Nat.mod_eq_of_lt (by omega)
    have hcc : cc % 128 = cc := Nat.mod_eq_of_lt (by omega)
    rw [midi_event_mk4_ccnum, hb', hcc,
      ccEventMk4_bank1_zynpot_delta env st cc a b hkb hc1 hc2 hl]
  · intro a b ha hb hne
    simp only [wrapDelta]
    split_ifs with h1 h2 <;> omega

/-- Claim C2 witness: seeding knob CC 21 with value 10 emits nothing, and
a subsequent value 12 emits ZYNPOT delta +2. -/
theorem c2_witness :
    midi_event_mk4 envA
        { shift := false, press_times := [], knob_bank := 1, mixer_synced := [],
          last_zynpot_values := [] } [176, 21, 10] =
      some (true,
        { shift := false, press_times := [], knob_bank := 1, mixer_synced := [],
          last_zynpot_values := [(21, 10)] }, []) ∧
    midi_event_mk4 envA
        { shift := false, press_times := [], knob_bank := 1, mixer_synced := [],
          last_zynpot_values := [(21, 10)] } [176, 21, 12] =
      some (true,
        { shift := false, press_times := [], knob_bank := 1, mixer_synced := [],
          last_zynpot_values := [(21, 12)] },
        [Effect.sendCuia "ZYNPOT" [CuiaArg.num 0, CuiaArg.num 2]]) := by
  constructor
  · have h := c2_relative_by_difference.1 envA
      { shift := false, press_times := [], knob_bank := 1, mixer_synced := [],
        last_zynpot_values := [] } 21 10 rfl (by decide) (by decide) (by decide) (by decide)
    simpa using h
  · have h := c2_relative_by_difference.2.1 envA
      { shift := false, press_times := [], knob_bank := 1, mixer_synced := [],
        last_zynpot_values := [(21, 10)] } 21 10 12 rfl (by decide) (by decide) (by decide)
      (by decide)
    simpa using h

/-- Claim C3 (confirmed): soft takeover on the pickup-variant bank-0 mixer
knobs mapped to a valid chain: while unsynced, a raw value v whose mapped
level `v/127` differs from the current level by at least 0.02 causes no
mixer mutation and leaves the knob unsynced; a value within the band syncs
the knob and sets the level to `v/127`; once synced every value sets the
level unconditionally. -/
theorem c3_soft_takeover :
    ∀ (env : Env) (st : Mk4State) (cc v : Nat) (mc : Int),
      st.knob_bank = 0 → 21 ≤ cc → cc ≤ 26 → v ≤ 127 →
      env.getChain (cc - 21) = some ⟨some mc⟩ → mc < 17 →
      ((cc ∉ st.mixer_synced → 2/100 ≤ |(v : ℚ)/127 - env.getLevel mc| →
          midi_event_mk4 env st [176, cc, v] = some (true, st, [])) ∧
       (cc ∉ st.mixer_synced → |(v : ℚ)/127 - env.getLevel mc| < 2/100 →
          midi_event_mk4 env st [176, cc, v] =
            some (true, { st with mixer_synced := cc :: st.mixer_synced },
              [Effect.setLevel mc ((v : ℚ)/127)])) ∧
       (cc ∈ st.mixer_synced →
          midi_event_mk4 env st [176, cc, v] =
            some (true, st, [Effect.setLevel mc ((v : ℚ)/127)]))) := by
  intro env st cc v mc hkb hc1 hc2 hv hch hmc
  have hv' : v % 128 = v := Nat.mod_eq_of_lt (by omega)
  have hcc : cc % 128 = cc := Nat.mod_eq_of_lt (by omega)
  have hred := ccEventMk4_bank0_mixer env st cc v mc hkb hc1 hc2 hch hmc
  refine ⟨?_, ?_, ?_⟩
  · intro hmem hband
    rw [midi_event_mk4_ccnum, hv', hcc, hred]
    rw [if_pos hmem, if_neg (by linarith)]
  · intro hmem hband
    rw [midi_event_mk4_ccnum, hv', hcc, hred]
    rw [if_pos hmem, if_pos hband]
  · intro hmem
    rw [midi_event_mk4_ccnum, hv', hcc, hred]
    rw [if_neg (by simpa using hmem)]

/-- Claim C3 witness: with level 1/2 on channel 3 and knob CC 21 unsynced,
value 100 (mapped 100/127) is out of band and mutates nothing; value 64
(mapped 64/127) is in band, syncs and sets the level; once synced, value
100 sets the level. -/
theorem c3_witness :
    midi_event_mk4 envA mk4State0 [176, 21, 100] = some (true, mk4State0, []) ∧
    midi_event_mk4 envA mk4State0 [176, 21, 64] =
      some (true, { mk4State0 with mixer_synced := [21] },
        [Effect.setLevel 3 ((64 : ℚ)/127)]) ∧
    midi_event_mk4 envA { mk4State0 with mixer_synced := [21] } [176, 21, 100] =
      some (true, { mk4State0 with mixer_synced := [21] },
        [Effect.setLevel 3 ((100 : ℚ)/127)]) := by
  refine ⟨?_, ?_, ?_⟩
  · have h := (c3_soft_takeover envA mk4State0 21 100 3 rfl (by decide) (by decide)
      (by decide) (by decide) (by decide)).1 (by decide)
      (by rw [envA_getLevel]; rw [abs_of_nonneg (by norm_num)]; norm_num)
    simpa using h
  · have h := (c3_soft_takeover envA mk4State0 21 64 3 rfl (by decide) (by decide)
      (by decide) (by decide) (by decide)).2.1 (by decide)
      (by rw [envA_getLevel]; rw [abs_of_nonneg (by norm_num)]; norm_num)
    simpa using h
  · have h := (c3_soft_takeover envA { mk4State0 with mixer_synced := [21] } 21 100 3 rfl
      (by decide) (by decide) (by decide) (by decide) (by decide)).2.2 (by decide)
    simpa using h

/-- Claim C4: the claim states that for every hold-classified button a
press (value > 0) records the current time.  It is false for CC 76 while
shift is held: the code routes shift+CC76 to the metronome (TEMPO) and
records nothing — the state is returned unchanged, with no press-time
entry for 76. -/
theorem c4_counterexample :
    midi_event_mini envA { miniState0 with shift := true } [176, 76, 127] =
      some (true, { miniState0 with shift := true }, [Effect.sendCuia "TEMPO" []]) ∧
    (MiniState.press_times { miniState0 with shift := true }).lookup 76 = none :=
  ⟨by decide, by decide⟩

/-- Claim C4 (amended): for every hold-classified button (CC 74-77 plus
CC 104 in the transport variant and CC 105 in the pickup variant), except
CC 76 while shift is held (which acts as the metronome button and bypasses
hold classification), a press records the current time (CC 104/105 also
light their LED); a release with a recorded press at time t emits exactly
one ZYNSWITCH action classified by duration — short below 0.5 s, bold from
0.5 s below 1.5 s, long from 1.5 s (so 0.49 s short, 0.50 s bold, 1.49 s
bold, 1.50 s long) — and removes the registry entry; a release with no
recorded press emits no action. -/
theorem c4_hold_classification :
    (∀ (env : Env) (st : MiniState) (cc v : Nat),
      (cc = 74 ∨ cc = 75 ∨ cc = 76 ∨ cc = 77 ∨ cc = 104) → v ≤ 127 →
      ¬ (st.shift = true ∧ cc = 76) →
      (0 < v → midi_event_mini env st [176, cc, v] =
        some (true, { st with press_times := dictInsert cc env.now st.press_times },
          if cc = 104 then [Effect.devSendCC 0 104 127] else [])) ∧
      (∀ t, st.press_times.lookup cc = some t →
        midi_event_mini env st [176, cc, 0] =
          some (true, { st with press_times := dictErase cc st.press_times },
            [Effect.sendCuia "ZYNSWITCH"
              [CuiaArg.num (if cc = 104 then 3 else (zynswitchIndex cc).getD 0),
               CuiaArg.sym (holdType (env.now - t))]])) ∧
      (st.press_times.lookup cc = none →
        midi_event_mini env st [176, cc, 0] = some (true, st, []))) ∧
    (∀ (env : Env) (st : Mk4State) (cc v : Nat),
      (cc = 74 ∨ cc = 75 ∨ cc = 76 ∨ cc = 77 ∨ cc = 105) → v ≤ 127 →
      ¬ (st.shift = true ∧ cc = 76) →
      (0 < v → midi_event_mk4 env st [176, cc, v] =
        some (true, { st with press_times := dictInsert cc env.now st.press_times },
          if cc = 105 then [Effect.devSendCC 0 105 127] else [])) ∧
      (∀ t, st.press_times.lookup cc = some t →
        midi_event_mk4 env st [176, cc, 0] =
          some (true, { st with press_times := dictErase cc st.press_times },
            [Effect.sendCuia "ZYNSWITCH"
              [CuiaArg.num (if cc = 105 then 3 else (zynswitchIndex cc).getD 0),
               CuiaArg.sym (holdType (env.now - t))]])) ∧
      (st.press_times.lookup cc = none →
        midi_event_mk4 env st [176, cc, 0] = some (true, st, []))) ∧
    (∀ d : ℚ, (d < 1/2 → holdType d = "S") ∧
      (1/2 ≤ d → d < 3/2 → holdType d = "B") ∧ (3/2 ≤ d → holdType d = "L")) ∧
    holdType (49/100) = "S" ∧ holdType (1/2) = "B" ∧
    holdType (149/100) = "B" ∧ holdType (3/2) = "L" := by
  refine ⟨?_, ?_, ?_, by norm_num [holdType], by norm_num [holdType],
    by norm_num [holdType], by norm_num [holdType]⟩
  · intro env st cc v hcc hv hsh
    have hv' : v % 128 = v := Nat.mod_eq_of_lt (by omega)
    have hcc' : cc % 128 = cc := Nat.mod_eq_of_lt (by omega)
    have hred := ccEventMini_hold env st cc v hcc hsh
    have hred0 := ccEventMini_hold env st cc 0 hcc hsh
    refine ⟨?_, ?_, ?_⟩
    · intro hpos
      rw [midi_event_mini_ccnum, hv', hcc', hred, if_pos hpos]
    · intro t hl
      rw [midi_event_mini_ccnum, show (0 : Nat) % 128 = 0 from rfl, hcc', hred0,
        if_neg (by omega), hl]
    · intro hl
      rw [midi_event_mini_ccnum, show (0 : Nat) % 128 = 0 from rfl, hcc', hred0,
        if_neg (by omega), hl]
  · intro env st cc v hcc hv hsh
    have hv' : v % 128 = v := Nat.mod_eq_of_lt (by omega)
    have hcc' : cc % 128 = cc := Nat.mod_eq_of_lt (by omega)
    have hred := ccEventMk4_hold env st cc v hcc hsh
    have hred0 := ccEventMk4_hold env st cc 0 hcc hsh
    refine ⟨?_, ?_, ?_⟩
    · intro hpos
      rw [midi_event_mk4_ccnum, hv', hcc', hred, if_pos hpos]
    · intro t hl
      rw [midi_event_mk4_ccnum, show (0 : Nat) % 128 = 0 from rfl, hcc', hred0,
        if_neg (by omega), hl]
    · intro hl
      rw [midi_event_mk4_ccnum, show (0 : Nat) % 128 = 0 from rfl, hcc', hred0,
        if_neg (by omega), hl]
  · intro d
    refine ⟨fun h => if_pos h, fun h1 h2 => ?_, fun h => ?_⟩
    · rw [holdType, if_neg (by linarith), if_pos h2]
    · rw [holdType, if_neg (by linarith), if_neg (by linarith)]

/-- Claim C4 witness: pressing CC 74 at time 10 records the press; a
release 0.49 s later classifies short, at exactly 0.5 s bold, at exactly
1.5 s long; a pickup-variant release of CC 105 with no recorded press
emits nothing. -/
theorem c4_witness :
    midi_event_mini (envAt 10) miniState0 [176, 74, 127] =
      some (true, { miniState0 with press_times := [(74, 10)] }, []) ∧
    midi_event_mini (envAt (1049/100)) { miniState0 with press_times := [(74, 10)] }
        [176, 74, 0] =
      some (true, miniState0,
        [Effect.sendCuia "ZYNSWITCH" [CuiaArg.num 0, CuiaArg.sym "S"]]) ∧
    midi_event_mini (envAt (21/2)) { miniState0 with press_times := [(74, 10)] }
        [176, 74, 0] =
      some (true, miniState0,
        [Effect.sendCuia "ZYNSWITCH" [CuiaArg.num 0, CuiaArg.sym "B"]]) ∧
    midi_event_mini (envAt (23/2)) { miniState0 with press_times := [(74, 10)] }
        [176, 74, 0] =
      some (true, miniState0,
        [Effect.sendCuia "ZYNSWITCH" [CuiaArg.num 0, CuiaArg.sym "L"]]) ∧
    midi_event_mk4 envA mk4State0 [176, 105, 0] = some (true, mk4State0, []) := by
  refine ⟨?_, ?_, ?_, ?_, ?_⟩
  · have h := ((c4_hold_classification.1 (envAt 10) miniState0 74 127
      (by norm_num) (by norm_num) (by norm_num)).1 (by norm_num))
    simpa [dictInsert, envAt_now] using h
  · have h := ((c4_hold_classification.1 (envAt (1049/100))
      { miniState0 with press_times := [(74, 10)] } 74 127
      (by norm_num) (by norm_num) (by norm_num)).2.1 10 (by decide))
    norm_num [miniState0, dictErase, envAt_now, holdType, zynswitchIndex] at h
    exact h
  · have h := ((c4_hold_classification.1 (envAt (21/2))
      { miniState0 with press_times := [(74, 10)] } 74 127
      (by norm_num) (by norm_num) (by norm_num)).2.1 10 (by decide))
    norm_num [miniState0, dictErase, envAt_now, holdType, zynswitchIndex] at h
    exact h
  · have h := ((c4_hold_classification.1 (envAt (23/2))
      { miniState0 with press_times := [(74, 10)] } 74 127
      (by norm_num) (by norm_num) (by norm_num)).2.1 10 (by decide))
    norm_num [miniState0, dictErase, envAt_now, holdType, zynswitchIndex] at h
    exact h
  · have h := ((c4_hold_classification.2.1 envA mk4State0 105 127
      (by norm_num) (by norm_num) (by norm_num)).2.2 (by decide))
    simpa using h

/-- Claim C5: the claim states that every bank transition clears both the
takeover sync set and the relative-encoder memory.  It is false for the
relative-encoder memory of the pickup-variant driver: a bank-up transition
clears `mixer_synced` but leaves `last_zynpot_values` untouched
(here still `[(21, 5)]`, not `[]`). -/
theorem c5_counterexample :
    midi_event_mk4 envA
        { shift := false, press_times := [], knob_bank := 0, mixer_synced := [21],
          last_zynpot_values := [(21, 5)] } [176, 52, 127] =
      some (true,
        { shift := false, press_times := [], knob_bank := 1, mixer_synced := [],
          last_zynpot_values := [(21, 5)] },
        [Effect.updateButtonLeds]) ∧
    ([(21, 5)] :  List (Nat × Nat)) ≠ [] :=
  ⟨by decide, by decide⟩

/-- Claim C5 (amended): without shift, a bank-down activation (CC 51,
value > 0) moves the bank to `(current - 1) mod 3` (so bank 0 goes to
bank 2) and bank-up (CC 52) to `(current + 1) mod 3` (so bank 2 goes to
bank 0); in the pickup variant each transition clears the takeover sync
set but leaves the relative-encoder memory intact (the transport variant
has neither map); with shift held the same controls send ARROW_UP /
ARROW_DOWN and leave the bank unchanged. -/
theorem c5_bank_switching :
    (∀ (env : Env) (st : Mk4State) (v : Nat), 0 < v → v ≤ 127 →
      (st.shift = false →
        midi_event_mk4 env st [176, 51, v] =
          some (true, { st with knob_bank := (st.knob_bank - 1) % 3, mixer_synced := [] },
            [Effect.updateButtonLeds]) ∧
        midi_event_mk4 env st [176, 52, v] =
          some (true, { st with knob_bank := (st.knob_bank + 1) % 3, mixer_synced := [] },
            [Effect.updateButtonLeds])) ∧
      (st.shift = true →
        midi_event_mk4 env st [176, 51, v] =
          some (true, st, [Effect.sendCuia "ARROW_UP" []]) ∧
        midi_event_mk4 env st [176, 52, v] =
          some (true, st, [Effect.sendCuia "ARROW_DOWN" []]))) ∧
    (∀ (env : Env) (st : MiniState) (v : Nat), 0 < v → v ≤ 127 →
      (st.shift = false →
        midi_event_mini env st [176, 51, v] =
          some (true, { st with knob_bank := (st.knob_bank - 1) % 3 },
            [Effect.updateButtonLeds]) ∧
        midi_event_mini env st [176, 52, v] =
          some (true, { st with knob_bank := (st.knob_bank + 1) % 3 },
            [Effect.updateButtonLeds])) ∧
      (st.shift = true →
        midi_event_mini env st [176, 51, v] =
          some (true, st, [Effect.sendCuia "ARROW_UP" []]) ∧
        midi_event_mini env st [176, 52, v] =
          some (true, st, [Effect.sendCuia "ARROW_DOWN" []]))) ∧
    ((0 : Int) - 1) % 3 = 2 ∧ ((2 : Int) + 1) % 3 = 0 := by
  refine ⟨?_, ?_, by decide, by decide⟩
  · intro env st v hv hv'
    have hm : v % 128 = v := Nat.mod_eq_of_lt (by omega)
    constructor <;> intro hsh <;> constructor <;>
    · rw [midi_event_mk4_ccnum, hm]
      simp only [ccEventMk4, hsh]
      norm_num [hv]
  · intro env st v hv hv'
    have hm : v % 128 = v := Nat.mod_eq_of_lt (by omega)
    constructor <;> intro hsh <;> constructor <;>
    · rw [midi_event_mini_ccnum, hm]
      simp only [ccEventMini, hsh]
      norm_num [hv]

/-- Claim C5 witness: from pickup-variant bank 0, bank-down lands on
bank 2 with the sync set cleared; from transport-variant bank 2, bank-up
lands on bank 0; with shift held the bank stays put and an arrow is sent. -/
theorem c5_witness :
    midi_event_mk4 envA { mk4State0 with mixer_synced := [21] } [176, 51, 127] =
      some (true, { mk4State0 with knob_bank := 2 }, [Effect.updateButtonLeds]) ∧
    midi_event_mini envA { miniState0 with knob_bank := 2 } [176, 52, 127] =
      some (true, { miniState0 with knob_bank := 0 }, [Effect.updateButtonLeds]) ∧
    midi_event_mini envA { miniState0 with shift := true } [176, 51, 127] =
      some (true, { miniState0 with shift := true }, [Effect.sendCuia "ARROW_UP" []]) := by
  refine ⟨?_, ?_, ?_⟩
  · have h := ((c5_bank_switching.1 envA { mk4State0 with mixer_synced := [21] } 127
      (by norm_num) (by norm_num)).1 rfl).1
    norm_num [mk4State0] at h
    exact h
  · have h := ((c5_bank_switching.2.1 envA { miniState0 with knob_bank := 2 } 127
      (by norm_num) (by norm_num)).1 rfl).2
    norm_num [miniState0] at h
    exact h
  · exact ((c5_bank_switching.2.1 envA { miniState0 with shift := true } 127
      (by norm_num) (by norm_num)).2 rfl).1

/-- Claim C6 (confirmed): the SELECT/BACK knob (CC 90, bank 1, transport
variant) is debounced: an activation less than 0.6 s after the recorded
last-accepted time is consumed with no host action and no state change; an
activation at or past the window is accepted, updates the debounce
timestamp, and sends BACK (counter-clockwise) or a short ZYNSWITCH 3
(clockwise); two activations 0.7 s or more apart (with moving values) both
produce actions. -/
theorem c6_select_back_debounce :
    (∀ (env : Env) (st : MiniState) (v : Nat), st.knob_bank = 1 → v ≤ 127 →
      (env.now - st.last_select_back_time < 3/5 →
        midi_event_mini env st [176, 90, v] = some (true, st, [])) ∧
      (3/5 ≤ env.now - st.last_select_back_time →
        midi_event_mini env st [176, 90, v] =
          some (true, { st with last_select_back_time := env.now }, selBackActs v))) ∧
    (∀ (env : Env) (t₁ t₂ : ℚ) (st : MiniState) (v₁ v₂ : Nat),
      st.knob_bank = 1 → v₁ ≤ 127 → v₂ ≤ 127 → v₁ ≠ 64 → v₂ ≠ 64 →
      3/5 ≤ t₁ - st.last_select_back_time → 7/10 ≤ t₂ - t₁ →
      midi_event_mini { env with now := t₁ } st [176, 90, v₁] =
        some (true, { st with last_select_back_time := t₁ }, selBackActs v₁) ∧
      selBackActs v₁ ≠ [] ∧
      midi_event_mini { env with now := t₂ } { st with last_select_back_time := t₁ }
          [176, 90, v₂] =
        some (true, { st with last_select_back_time := t₂ }, selBackActs v₂) ∧
      selBackActs v₂ ≠ []) := by
  have hne : ∀ v : Nat, v ≤ 127 → v ≠ 64 → selBackActs v ≠ [] := by
    intro v hv h64
    simp only [selBackActs]
    split_ifs with h1 h2
    · simp
    · simp
    · omega
  have hred : ∀ (env : Env) (st : MiniState) (v : Nat), st.knob_bank = 1 → v ≤ 127 →
      midi_event_mini env st [176, 90, v] =
        some (if env.now - st.last_select_back_time < 3/5 then (true, st, [])
          else (true, { st with last_select_back_time := env.now }, selBackActs v)) := by
    intro env st v hkb hv
    have hm : v % 128 = v := Nat.mod_eq_of_lt (by omega)
    rw [midi_event_mini_ccnum, hm]
    simp only [ccEventMini, hkb, selBackActs]
    norm_num
  constructor
  · intro env st v hkb hv
    constructor
    · intro hlt
      rw [hred env st v hkb hv, if_pos hlt]
    · intro hge
      rw [hred env st v hkb hv, if_neg (not_lt.mpr hge)]
  · intro env t₁ t₂ st v₁ v₂ hkb hv1 hv2 h641 h642 hgap1 hgap2
    refine ⟨?_, hne v₁ hv1 h641, ?_, hne v₂ hv2 h642⟩
    · rw [hred { env with now := t₁ } st v₁ hkb hv1, if_neg (not_lt.mpr hgap1)]
    · rw [hred { env with now := t₂ } { st with last_select_back_time := t₁ } v₂ hkb hv2,
        if_neg (not_lt.mpr (by simpa using by linarith : (3/5 : ℚ) ≤ t₂ - t₁))]

/-- Claim C6 witness: with last-accepted time 0, an activation at t = 0.4 s
is discarded; activations at t = 9 and t = 10 (0.7 s or more apart, values
1 then 127) both produce actions (BACK, then short ZYNSWITCH 3). -/
theorem c6_witness :
    midi_event_mini (envAt (2/5)) miniState0 [176, 90, 1] =
      some (true, miniState0, []) ∧
    midi_event_mini (envAt 9) miniState0 [176, 90, 1] =
      some (true, { miniState0 with last_select_back_time := 9 },
        [Effect.sendCuia "BACK" []]) ∧
    midi_event_mini (envAt 10) { miniState0 with last_select_back_time := 9 }
        [176, 90, 127] =
      some (true, { miniState0 with last_select_back_time := 10 },
        [Effect.sendCuia "ZYNSWITCH" [CuiaArg.num 3, CuiaArg.sym "S"]]) := by
  refine ⟨?_, ?_, ?_⟩
  · have h := ((c6_select_back_debounce.1 (envAt (2/5)) miniState0 1 rfl
      (by norm_num)).1 (by norm_num [envAt_now, miniState0]))
    exact h
  · have h := (c6_select_back_debounce.2 envA 9 10 miniState0 1 127 rfl
      (by norm_num) (by norm_num) (by norm_num) (by norm_num)
      (by norm_num [miniState0]) (by norm_num))
    have h1 := h.1
    norm_num [selBackActs] at h1
    exact h1
  · have h := (c6_select_back_debounce.2 envA 9 10 miniState0 1 127 rfl
      (by norm_num) (by norm_num) (by norm_num) (by norm_num)
      (by norm_num [miniState0]) (by norm_num))
    have h2 := h.2.2.1
    norm_num [selBackActs] at h2
    exact h2

/-- Claim C7: the claim states `midi_event` never raises on any input byte
sequence, including truncated messages.  It is false for truncated
messages whose status nibble is recognized: a 1-byte note-on `[0x90]`
raises an IndexError at `ev[1]` in the transport variant (modelled as
`none`), and a 2-byte control-change `[0xB0, 21]` raises at `ev[2]` in the
pickup variant. -/
theorem c7_counterexample :
    midi_event_mini envA miniState0 [144] = none ∧
    midi_event_mk4 envA mk4State0 [176, 21] = none :=
  ⟨rfl, rfl⟩

/-- Claim C7 (amended): on every complete message of at least 3 bytes,
both drivers' `midi_event` complete without an exception, and a message
with an unrecognized status nibble is degraded to pass-through (returns
not-handled with no action and no state change); truncated messages with
a recognized status nibble, however, raise. -/
theorem c7_no_raise_on_complete :
    (∀ (env : Env) (st : MiniState) (stM : Mk4State) (ev : List Nat),
      3 ≤ ev.length →
      (midi_event_mini env st ev).isSome ∧ (midi_event_mk4 env stM ev).isSome) ∧
    (∀ (env : Env) (st : MiniState) (stM : Mk4State) (b0 d1 d2 : Nat),
      b0 / 16 % 16 ≠ 9 → b0 / 16 % 16 ≠ 8 → b0 / 16 % 16 ≠ 11 → b0 / 16 % 16 ≠ 12 →
      midi_event_mini env st [b0, d1, d2] = some (false, st, []) ∧
      midi_event_mk4 env stM [b0, d1, d2] = some (false, stM, [])) := by
  constructor
  · intro env st stM ev hlen
    rcases ev with _ | ⟨a, ev⟩
    · simp at hlen
    rcases ev with _ | ⟨b, ev⟩
    · simp at hlen
    rcases ev with _ | ⟨c, t⟩
    · simp at hlen
    constructor
    · simp only [midi_event_mini]
      split_ifs <;> simp
    · simp only [midi_event_mk4]
      split_ifs <;> simp
  · intro env st stM b0 d1 d2 h9 h8 h11 h12
    constructor
    · simp only [midi_event_mini]
      rw [if_neg (by omega), if_neg h11, if_neg h12]
    · simp only [midi_event_mk4]
      rw [if_neg (by omega), if_neg h11, if_neg h12]

/-- Claim C7 witness: the complete 3-byte messages `[0x90, 60, 100]` and
`[0xB0, 21, 64]` are handled without an exception by both drivers, and the
unrecognized status `0xA5` (polyphonic aftertouch) passes through
unhandled with no state change. -/
theorem c7_witness :
    (midi_event_mini envA miniState0 [144, 60, 100]).isSome ∧
    (midi_event_mk4 envA mk4State0 [176, 21, 64]).isSome ∧
    midi_event_mini envA miniState0 [165, 1, 2] = some (false, miniState0, []) ∧
    midi_event_mk4 envA mk4State0 [165, 1, 2] = some (false, mk4State0, []) := by
  refine ⟨?_, ?_, ?_, ?_⟩
  · exact (c7_no_raise_on_complete.1 envA miniState0 mk4State0 [144, 60, 100]
      (by norm_num)).1
  · exact (c7_no_raise_on_complete.1 envA miniState0 mk4State0 [176, 21, 64]
      (by norm_num)).2
  · exact (c7_no_raise_on_complete.2 envA miniState0 mk4State0 165 1 2
      (by norm_num) (by norm_num) (by norm_num) (by norm_num)).1
  · exact (c7_no_raise_on_complete.2 envA miniState0 mk4State0 165 1 2
      (by norm_num) (by norm_num) (by norm_num) (by norm_num)).2

theorem midi_event_mini_note (env : Env) (st : MiniState) (b0 d1 d2 : Nat)
    (h : b0 / 16 % 16 = 9 ∨ b0 / 16 % 16 = 8) :
    midi_event_mini env st [b0, d1, d2] =
      some ((noteEvent env (b0 / 16 % 16) (d1 % 128) (d2 % 128) [b0, d1, d2]).1, st,
        (noteEvent env (b0 / 16 % 16) (d1 % 128) (d2 % 128) [b0, d1, d2]).2) := by
  rcases h with h | h <;> simp [midi_event_mini, h]

theorem midi_event_mk4_note (env : Env) (st : Mk4State) (b0 d1 d2 : Nat)
    (h : b0 / 16 % 16 = 9 ∨ b0 / 16 % 16 = 8) :
    midi_event_mk4 env st [b0, d1, d2] =
      some ((noteEvent env (b0 / 16 % 16) (d1 % 128) (d2 % 128) [b0, d1, d2]).1, st,
        (noteEvent env (b0 / 16 % 16) (d1 % 128) (d2 % 128) [b0, d1, d2]).2) := by
  rcases h with h | h <;> simp [midi_event_mk4, h]

theorem noteEvent_outside (env : Env) (evtype note vel : Nat) (ev : List Nat)
    (h : ¬ (96 ≤ note ∧ note ≤ 119)) :
    noteEvent env evtype note vel ev = (true, [Effect.writeZynmidi ev]) := by
  simp only [noteEvent, if_neg h]

theorem noteEvent_inside (env : Env) (evtype note vel : Nat) (ev : List Nat)
    (h : 96 ≤ note ∧ note ≤ 119) :
    (noteEvent env evtype note vel ev).1 = true ∧
    ∀ e ∈ (noteEvent env evtype note vel ev).2, isForward e = false := by
  simp only [noteEvent, if_pos h]
  split_ifs with h1 h2
  · cases hg : env.getChain (note - 96) with
    | none => simp [hg, isForward]
    | some c =>
      cases hmc : c.mixer_chan with
      | none => simp [hg, hmc, isForward]
      | some mc =>
        by_cases hlt : mc < 17
        · simp [hg, hmc, hlt, isForward]
        · simp [hg, hmc, hlt, isForward]
  · cases hg : env.getChain (note - 112) with
    | none => simp [hg, isForward]
    | some c =>
      cases hmc : c.mixer_chan with
      | none => simp [hg, hmc, isForward]
      | some mc =>
        by_cases hlt : mc < 17
        · simp [hg, hmc, hlt, isForward]
        · simp [hg, hmc, hlt, isForward]
  · simp

/-- Claim C8: the claim states a note event outside [96,119] is forwarded
unmodified "and not consumed".  The forwarding holds, but the event is
consumed: `midi_event` reports it handled (returns True, the same sense of
"consumed" the code uses for pad notes), as shown here for note-on 60. -/
theorem c8_counterexample :
    midi_event_mini envA miniState0 [144, 60, 100] =
      some (true, miniState0, [Effect.writeZynmidi [144, 60, 100]]) ∧
    midi_event_mk4 envA mk4State0 [144, 60, 100] =
      some (true, mk4State0, [Effect.writeZynmidi [144, 60, 100]]) :=
  ⟨by decide, by decide⟩

/-- Claim C8 (amended): every note-on/note-off whose (masked) note number
is outside [96,119] is forwarded raw and unmodified to the host's MIDI
routing, though still reported handled; every note event inside [96,119]
is consumed by the driver and never forwarded (none of its emitted effects
is a raw-MIDI forward). -/
theorem c8_note_passthrough :
    ∀ (env : Env) (st : MiniState) (stM : Mk4State) (b0 d1 d2 : Nat),
      (b0 / 16 % 16 = 9 ∨ b0 / 16 % 16 = 8) →
      (¬ (96 ≤ d1 % 128 ∧ d1 % 128 ≤ 119) →
        midi_event_mini env st [b0, d1, d2] =
          some (true, st, [Effect.writeZynmidi [b0, d1, d2]]) ∧
        midi_event_mk4 env stM [b0, d1, d2] =
          some (true, stM, [Effect.writeZynmidi [b0, d1, d2]])) ∧
      ((96 ≤ d1 % 128 ∧ d1 % 128 ≤ 119) →
        midi_event_mini env st [b0, d1, d2] =
          some (true, st,
            (noteEvent env (b0 / 16 % 16) (d1 % 128) (d2 % 128) [b0, d1, d2]).2) ∧
        midi_event_mk4 env stM [b0, d1, d2] =
          some (true, stM,
            (noteEvent env (b0 / 16 % 16) (d1 % 128) (d2 % 128) [b0, d1, d2]).2) ∧
        ∀ e ∈ (noteEvent env (b0 / 16 % 16) (d1 % 128) (d2 % 128) [b0, d1, d2]).2,
          isForward e = false) := by
  intro env st stM b0 d1 d2 hnib
  constructor
  · intro hout
    rw [midi_event_mini_note env st b0 d1 d2 hnib,
      midi_event_mk4_note env stM b0 d1 d2 hnib,
      noteEvent_outside env (b0 / 16 % 16) (d1 % 128) (d2 % 128) [b0, d1, d2] hout]
    exact ⟨rfl, rfl⟩
  · intro hin
    have hi := noteEvent_inside env (b0 / 16 % 16) (d1 % 128) (d2 % 128) [b0, d1, d2] hin
    refine ⟨?_, ?_, hi.2⟩
    · rw [midi_event_mini_note env st b0 d1 d2 hnib, hi.1]
    · rw [midi_event_mk4_note env stM b0 d1 d2 hnib, hi.1]

/-- Claim C8 witness: a note-off on note 40 is forwarded raw by both
drivers, and the pad note-on 98 is consumed with no forwarding effect
among its outputs. -/
theorem c8_witness :
    midi_event_mini envA miniState0 [128, 40, 0] =
      some (true, miniState0, [Effect.writeZynmidi [128, 40, 0]]) ∧
    midi_event_mini envA miniState0 [144, 98, 100] =
      some (true, miniState0, (noteEvent envA 9 98 100 [144, 98, 100]).2) ∧
    (∀ e ∈ (noteEvent envA 9 98 100 [144, 98, 100]).2, isForward e = false) := by
  refine ⟨?_, ?_, ?_⟩
  · exact ((c8_note_passthrough envA miniState0 mk4State0 128 40 0
      (by norm_num) ).1 (by norm_num)).1
  · have h := ((c8_note_passthrough envA miniState0 mk4State0 144 98 100
      (by norm_num)).2 (by norm_num)).1
    simpa using h
  · have h := ((c8_note_passthrough envA miniState0 mk4State0 144 98 100
      (by norm_num)).2 (by norm_num)).2.2
    simpa using h

/-- Claim C9 (confirmed): with the output device and both manager
attributes present, a pad-LED refresh in either variant writes exactly one
note-on per pad — the 8 solo-row positions (notes 96-103) followed by the
8 mute-row positions (notes 112-119), each computed from its own chain
lookup — and any position whose chain resolution fails (raised lookup,
missing chain, channel None, or channel out of range) gets velocity 0
while every other position is still computed and written; the refresh is a
total function and never aborts. -/
theorem c9_led_degrade :
    ∀ env : LedEnv, env.idev_out_present = true → env.has_chain_manager = true →
      env.has_zynmixer = true →
      (update_pad_leds_mini env =
        ((List.range 8).map fun i =>
          Effect.devSendNoteOn 0 (96 + i) (soloPadVel env 14 118 i)) ++
        ((List.range 8).map fun i =>
          Effect.devSendNoteOn 0 (112 + i) (mutePadVel env i)) ∧
       update_pad_leds_mk4 env =
        ((List.range 8).map fun i =>
          Effect.devSendNoteOn 0 (96 + i) (soloPadVel env 5 10 i)) ++
        ((List.range 8).map fun i =>
          Effect.devSendNoteOn 0 (112 + i) (mutePadVel env i))) ∧
      (update_pad_leds_mini env).length = 16 ∧
      (update_pad_leds_mk4 env).length = 16 ∧
      (∀ i, chainResolveFails env i →
        (∀ a b : Nat, soloPadVel env a b i = 0) ∧ mutePadVel env i = 0) := by
  intro env h1 h2 h3
  have hcore : ∀ a b : Nat, updatePadLedsCore env a b =
      ((List.range 8).map fun i =>
        Effect.devSendNoteOn 0 (96 + i) (soloPadVel env a b i)) ++
      ((List.range 8).map fun i =>
        Effect.devSendNoteOn 0 (112 + i) (mutePadVel env i)) := by
    intro a b
    rw [updatePadLedsCore, if_neg (by simp [h1]), if_neg (by simp [h2, h3])]
  refine ⟨⟨hcore 14 118, hcore 5 10⟩, ?_, ?_, ?_⟩
  · rw [update_pad_leds_mini, hcore 14 118]; simp
  · rw [update_pad_leds_mk4, hcore 5 10]; simp
  · intro i hfail
    rcases hfail with h | h | h | ⟨mc, h, hge⟩
    · exact ⟨fun a b => by simp [soloPadVel, h], by simp [mutePadVel, h]⟩
    · exact ⟨fun a b => by simp [soloPadVel, h], by simp [mutePadVel, h]⟩
    · exact ⟨fun a b => by simp [soloPadVel, h], by simp [mutePadVel, h]⟩
    · refine ⟨fun a b => ?_, ?_⟩
      · simp only [soloPadVel, h]
        rw [if_neg (not_lt.mpr hge)]
      · simp only [mutePadVel, h]
        rw [if_neg (not_lt.mpr hge)]

/-- Claim C9 witness: in `ledEnvA` position 3 has no chain and position 5
an out-of-range channel; the transport-variant refresh still writes all 16
pads, and both failing positions' velocities are 0 in both rows. -/
theorem c9_witness :
    (update_pad_leds_mini ledEnvA).length = 16 ∧
    soloPadVel ledEnvA 14 118 3 = 0 ∧ mutePadVel ledEnvA 3 = 0 ∧
    soloPadVel ledEnvA 5 10 5 = 0 ∧ mutePadVel ledEnvA 5 = 0 := by
  have h := c9_led_degrade ledEnvA rfl rfl rfl
  have h3 := h.2.2.2 3 (Or.inr (Or.inl (by decide)))
  have h5 := h.2.2.2 5 (Or.inr (Or.inr (Or.inr ⟨20, by decide, by decide⟩)))
  exact ⟨h.2.1, h3.1 14 118, h3.2, h5.1 5 10, h5.2⟩

theorem midi_event_mini_cc_chan (env : Env) (st : MiniState) (ch d1 d2 : Nat)
    (hch : ch < 16) :
    midi_event_mini env st [176 + ch, d1, d2] =
      some (ccEventMini env st ((176 + ch) % 16) (d1 % 128) (d2 % 128)) := by
  have h : (176 + ch) / 16 % 16 = 11 := by omega
  simp [midi_event_mini, h]

theorem midi_event_mk4_cc_chan (env : Env) (st : Mk4State) (ch d1 d2 : Nat)
    (hch : ch < 16) :
    midi_event_mk4 env st [176 + ch, d1, d2] =
      some (ccEventMk4 env st ((176 + ch) % 16) (d1 % 128) (d2 % 128)) := by
  have h : (176 + ch) / 16 % 16 = 11 := by omega
  simp [midi_event_mk4, h]

/-- Claim C10 (confirmed): a control-change event on any channel that falls
past every earlier handler but has controller number 0 or value 0 is
consumed (reported handled) with no host action, no state change, and no
device write — in particular value-0 releases of unmapped buttons and any
controller-0 message never pass through. -/
theorem c10_cc_fallthrough :
    (∀ (env : Env) (st : MiniState) (ch cc v : Nat),
      ch < 16 → cc ≤ 127 → v ≤ 127 →
      ¬ (cc = 51 ∧ 0 < v) → ¬ (cc = 52 ∧ 0 < v) → cc ≠ 63 → cc ≠ 104 →
      ¬ (84 < cc ∧ cc < 93) → ¬ (cc = 74 ∨ cc = 75 ∨ cc = 76 ∨ cc = 77) →
      ¬ (cc = 115 ∧ 0 < v) → ¬ (cc = 117 ∧ 0 < v) →
      ¬ ((buttonCommandMini cc).isSome ∧ 0 < v) →
      (cc = 0 ∨ v = 0) →
      midi_event_mini env st [176 + ch, cc, v] = some (true, st, [])) ∧
    (∀ (env : Env) (st : Mk4State) (ch cc v : Nat),
      ch < 16 → cc ≤ 127 → v ≤ 127 →
      ¬ (cc = 51 ∧ 0 < v) → ¬ (cc = 52 ∧ 0 < v) → cc ≠ 63 → cc ≠ 105 →
      ¬ (20 < cc ∧ cc < 29) → ¬ (cc = 74 ∨ cc = 75 ∨ cc = 76 ∨ cc = 77) →
      ¬ (cc = 115 ∧ 0 < v) → ¬ (cc = 117 ∧ 0 < v) →
      ¬ ((buttonCommandMk4 cc).isSome ∧ 0 < v) →
      (cc = 0 ∨ v = 0) →
      midi_event_mk4 env st [176 + ch, cc, v] = some (true, st, [])) := by
  constructor
  · intro env st ch cc v hch hcc hv h1 h2 h3 h4 h5 h6 h7 h8 h9 h10
    rw [midi_event_mini_cc_chan env st ch cc v hch,
      Nat.mod_eq_of_lt (show cc < 128 by omega),
      Nat.mod_eq_of_lt (show v < 128 by omega)]
    simp only [ccEventMini]
    rw [if_neg h1, if_neg h2, if_neg h3, if_neg h4, if_neg h5, if_neg h6,
      if_neg h7, if_neg h8]
    cases hb : buttonCommandMini cc with
    | some cmd =>
      have hv0 : v = 0 := by
        rcases Nat.eq_zero_or_pos v with h | h
        · exact h
        · exact absurd ⟨by simp [hb], h⟩ h9
      simp only [hb, hv0]
      norm_num
    | none =>
      simp only [hb]
      rw [if_pos h10]
  · intro env st ch cc v hch hcc hv h1 h2 h3 h4 h5 h6 h7 h8 h9 h10
    rw [midi_event_mk4_cc_chan env st ch cc v hch,
      Nat.mod_eq_of_lt (show cc < 128 by omega),
      Nat.mod_eq_of_lt (show v < 128 by omega)]
    simp only [ccEventMk4]
    rw [if_neg h1, if_neg h2, if_neg h3, if_neg h4, if_neg h5, if_neg h6,
      if_neg h7, if_neg h8]
    cases hb : buttonCommandMk4 cc with
    | some cmd =>
      have hv0 : v = 0 := by
        rcases Nat.eq_zero_or_pos v with h | h
        · exact h
        · exact absurd ⟨by simp [hb], h⟩ h9
      simp only [hb, hv0]
      norm_num
    | none =>
      simp only [hb]
      rw [if_pos h10]

/-- Claim C10 witness: the value-0 release of the unmapped-on-release
PRESET button (CC 107) in the transport variant, and a controller-0
message with positive value in the pickup variant, are both consumed with
no action and no state change. -/
theorem c10_witness :
    midi_event_mini envA miniState0 [176, 107, 0] = some (true, miniState0, []) ∧
    midi_event_mk4 envA mk4State0 [176, 0, 99] = some (true, mk4State0, []) := by
  constructor
  · have h := c10_cc_fallthrough.1 envA miniState0 0 107 0 (by norm_num) (by norm_num)
      (by norm_num) (by norm_num) (by norm_num) (by norm_num) (by norm_num)
      (by norm_num) (by norm_num) (by norm_num) (by norm_num)
      (by simp [buttonCommandMini]) (by norm_num)
    simpa using h
  · have h := c10_cc_fallthrough.2 envA mk4State0 0 0 99 (by norm_num) (by norm_num)
      (by norm_num) (by norm_num) (by norm_num) (by norm_num) (by norm_num)
      (by norm_num) (by norm_num) (by norm_num) (by norm_num)
      (by simp [buttonCommandMk4]) (by norm_num)
    simpa using h

end Launchkey
